import Mathlib

/-!
Shallow embedding of `src/event_handler.rs` of the discord-vc-thread bot.

The handler keeps three maps (voice channel → thread, thread → voice channel,
thread → agenda message) plus the write-once bot user id.  Every async
platform call is modelled by an environment record supplying that call's
result (`none` / a `Bool` flag = the call failed), and each handler method is
translated into a pure function from the handler state, the environment and
the event inputs to the new state, the list of attempted outbound platform
calls (`Effect`s, in source order) and the `Except`-typed result that the
Rust function returns.
-/

namespace VcThread

/-- Platform snowflake id of a channel (voice channel, text channel or thread). -/
abbrev ChannelId := Nat

/-- Platform snowflake id of a user. -/
abbrev UserId := Nat

/-- Platform snowflake id of a message. -/
abbrev MessageId := Nat

/-- The part of a platform message the handler inspects: its id and whether its
author is a bot (`m.author.bot`).  The stored agenda message is also of this
shape; its text content only ever flows outward (into effects), so it is not
part of the state. -/
structure Message where
  id : MessageId
  author_bot : Bool
  deriving DecidableEq, Repr

/-- A member of a thread as returned by `get_thread_members`; `user_id` is
optional in the platform model. -/
structure ThreadMember where
  user_id : Option UserId
  deriving DecidableEq, Repr

/-- Channel kinds distinguished by the handler. -/
inductive ChannelKind where
  | voice
  | text
  | publicThread
  | category
  deriving DecidableEq, Repr

/-- A guild channel: id, kind, parent category and display name. -/
structure GuildChannel where
  id : ChannelId
  kind : ChannelKind
  parent_id : Option ChannelId
  name : String
  deriving DecidableEq, Repr

/-- Result of `to_channel(..).guild()`-style resolution: either a guild
channel or some other channel kind (DM etc.). -/
inductive Channel where
  | guild (c : GuildChannel)
  | other
  deriving DecidableEq, Repr

/-- `AppConfig.discord`: the static configuration consumed by the handler. -/
structure DiscordConfig where
  vc_category : ChannelId
  vc_ignored_channels : List ChannelId
  thread_channel : ChannelId
  deriving DecidableEq, Repr

/-- The application configuration (only the discord section is used). -/
structure AppConfig where
  discord : DiscordConfig
  deriving DecidableEq, Repr

/-- The mutable state of `Handler`: the bot user id cell and the three maps,
each modelled as a function to `Option` (a `HashMap`). -/
structure HandlerState where
  bot_user_id : Option UserId
  vc_to_thread : ChannelId → Option ChannelId
  thread_to_vc : ChannelId → Option ChannelId
  thread_to_agenda_message : ChannelId → Option Message

/-- `HashMap.insert`: point update of a map. -/
def updateMap {β : Type} (m : ChannelId → Option β) (k : ChannelId) (v : β) :
    ChannelId → Option β :=
  fun x => if x = k then some v else m x

/-- An attempted outbound platform call, recorded in source order. -/
inductive Effect where
  | sendMessage (channel : ChannelId) (content : String)
  | sendMessageWithButton (channel : ChannelId) (content : String) (button_id : String)
  | createPublicThread (channel : ChannelId) (from_message : MessageId) (name : String)
  | deleteMessage (message : MessageId)
  | editMessage (message : MessageId) (content : String)
  | interactionRespondMessage (ephemeral : Bool) (content : String)
  | interactionRespondModal (modal_id : String) (field_id : String)
  | editChannel (channel : ChannelId) (name : String)
  | editThread (thread : ChannelId) (name : Option String) (archived : Option Bool)
  | deleteChannel (channel : ChannelId)
  deriving DecidableEq, Repr

/-- `member.mention()` / `UserId::mention`. -/
def mention_user (u : UserId) : String := "<@" ++ toString u ++ ">"

/-- `ChannelId::mention`. -/
def mention_channel (c : ChannelId) : String := "<#" ++ toString c ++ ">"

/-- Content of the join notice posted in the bound thread. -/
def join_notice_content (u : UserId) : String :=
  mention_user u ++ " さんが参加しました。"

/-- Content of the agenda message posted in the configured thread channel. -/
def agenda_content (u : UserId) (vc : ChannelId) : String :=
  mention_user u ++ " さんが新しいVCを作成しました。\nVCに参加する→ " ++ mention_channel vc

/-- Content of the back-reference message posted in the voice channel chat. -/
def vc_notice_content (thread : ChannelId) : String :=
  "VCチャット→ " ++ mention_channel thread

/-- Content of the welcome message posted in the new thread. -/
def welcome_content (u : UserId) (channel_name : String) : String :=
  mention_user u ++ " `" ++ channel_name ++
    "`へようこそ。\n興味を引くチャンネル名に変えてみんなを呼び込もう！"

/-- Content of the closing summary the agenda message is edited into. -/
def closing_content (thread_name : String) (participants : List UserId) : String :=
  "`" ++ thread_name ++ "` のVCが終了しました。\n通話時間: `00:00:00`\n参加者: " ++
    String.intercalate " " (participants.map mention_user)

/-- `is_custom_vc`: the pure classifier (lines 49–77 of the source). -/
def is_custom_vc (cfg : AppConfig) (channel : GuildChannel) : Bool :=
  if channel.kind ≠ ChannelKind.voice then
    false
  else
    match channel.parent_id with
    | none => false
    | some parent_channel_id =>
      if parent_channel_id ≠ cfg.discord.vc_category then
        false
      else if cfg.discord.vc_ignored_channels.contains channel.id then
        false
      else
        true

/-- Results of the platform calls `create_or_mention_thread` can make.
`none` (or a `false` flag for calls whose return value is unused) means the
call failed; `channel_name` is the `Option` that `ChannelId::name` returns,
whose absence is covered by the `unwrap_or` fallback, not an error. -/
structure CreateEnv where
  thread_members : Option (List ThreadMember)
  join_notice_ok : Bool
  channel_name : Option String
  send_agenda : Option Message
  create_thread : Option ChannelId
  vc_notice_ok : Bool
  welcome_ok : Bool

/-- `create_or_mention_thread` (lines 80–199): on a bound voice channel it
only posts a join notice for unseen members; on an unbound one it posts the
agenda message, creates the thread, posts the back-reference and the welcome
message, and then registers the three map entries. -/
def create_or_mention_thread (cfg : AppConfig) (st : HandlerState) (env : CreateEnv)
    (vc_channel_id : ChannelId) (member_user_id : UserId) :
    HandlerState × List Effect × Except String Unit :=
  match st.vc_to_thread vc_channel_id with
  | some thread_id =>
    match env.thread_members with
    | none => (st, [], Except.error "スレッドメンバーの取得に失敗")
    | some members =>
      if (members.filterMap ThreadMember.user_id).any (fun user_id => user_id == member_user_id) then
        (st, [], Except.ok ())
      else
        (st, [Effect.sendMessage thread_id (join_notice_content member_user_id)],
          if env.join_notice_ok then Except.ok () else Except.error "参加メッセージの送信に失敗")
  | none =>
    let channel_name := env.channel_name.getD "不明なVC"
    let thread_channel := cfg.discord.thread_channel
    let agendaEff := Effect.sendMessage thread_channel (agenda_content member_user_id vc_channel_id)
    match env.send_agenda with
    | none => (st, [agendaEff], Except.error "議題メッセージの送信に失敗")
    | some message =>
      match env.create_thread with
      | none =>
        (st, [agendaEff, Effect.createPublicThread thread_channel message.id channel_name],
          Except.error "スレッドの作成に失敗")
      | some thread =>
        let effs := [agendaEff,
          Effect.createPublicThread thread_channel message.id channel_name,
          Effect.sendMessage vc_channel_id (vc_notice_content thread)]
        if env.vc_notice_ok = false then
          (st, effs, Except.error "VCチャットの案内メッセージ作成に失敗")
        else
          let effs := effs ++
            [Effect.sendMessageWithButton thread (welcome_content member_user_id channel_name)
              "rename_button"]
          if env.welcome_ok = false then
            (st, effs, Except.error "参加メッセージの作成に失敗")
          else
            ({ st with
                thread_to_vc := updateMap st.thread_to_vc thread vc_channel_id,
                vc_to_thread := updateMap st.vc_to_thread vc_channel_id thread,
                thread_to_agenda_message := updateMap st.thread_to_agenda_message thread message },
              effs, Except.ok ())

/-- Results of the platform calls `rename_thread` can make. -/
structure RenameThreadEnv where
  channel_name : Option String
  edit_ok : Bool

/-- `rename_thread` (lines 202–233): no-op when unbound, otherwise renames
the bound thread to the voice channel's current name. -/
def rename_thread (st : HandlerState) (env : RenameThreadEnv) (vc_channel_id : ChannelId) :
    List Effect × Except String Unit :=
  match st.vc_to_thread vc_channel_id with
  | some thread_id =>
    let channel_name := env.channel_name.getD "不明なVC"
    ([Effect.editThread thread_id (some channel_name) none],
      if env.edit_ok then Except.ok () else Except.error "スレッドのリネームに失敗")
  | none => ([], Except.ok ())

/-- Result of the `to_channel` call inside `get_vc`. -/
structure GetVcEnv where
  to_channel_result : Option Channel

/-- `get_vc` (lines 236–243): resolve the voice channel bound to a thread. -/
def get_vc (st : HandlerState) (env : GetVcEnv) (channel_id : ChannelId) :
    Except String GuildChannel :=
  match st.thread_to_vc channel_id with
  | none => Except.error "無効なVCチャンネル"
  | some _vc_channel_id =>
    match env.to_channel_result with
    | none => Except.error "チャンネルの取得に失敗"
    | some (Channel.guild vc_channel) => Except.ok vc_channel
    | some Channel.other => Except.error "無効なVCチャンネルの種類"

/-- Permissions of a user on a channel; only `manage_channels` is consulted. -/
structure Permissions where
  manage_channels : Bool
  deriving DecidableEq, Repr

/-- A component inside an action row of a modal submission. -/
inductive ActionRowComponent where
  | inputText (custom_id : String) (value : String)
  | otherComponent
  deriving DecidableEq, Repr

/-- A `MessageComponentInteraction`: the button press. -/
structure ComponentInteraction where
  custom_id : String
  channel_id : ChannelId
  user_id : UserId
  deriving DecidableEq, Repr

/-- A `ModalSubmitInteraction`: the modal submission carrying action rows. -/
structure ModalInteraction where
  custom_id : String
  channel_id : ChannelId
  user_id : UserId
  components : List (List ActionRowComponent)
  deriving DecidableEq, Repr

/-- Results of the platform calls `button_pressed` can make.  `permissions`
is the `Result` of `permissions_for_user` (`none` = `Err`); the `ok` flags
are the outcomes of the interaction-response calls. -/
structure ButtonEnv where
  get_vc_env : GetVcEnv
  permissions : Option Permissions
  respond_dissolved_ok : Bool
  respond_owner_ok : Bool
  respond_modal_ok : Bool

/-- `button_pressed` (lines 246–314): resolve the bound voice channel,
check `manage_channels`, then open the rename modal; each failure path
answers the interaction with an ephemeral error message. -/
def button_pressed (st : HandlerState) (env : ButtonEnv) (interaction : ComponentInteraction) :
    List Effect × Except String Unit :=
  match get_vc st env.get_vc_env interaction.channel_id with
  | Except.error _ =>
    ([Effect.interactionRespondMessage true "❌そのVCは既に解散しています"],
      if env.respond_dissolved_ok then Except.ok () else Except.error "エラー内容の応答に失敗")
  | Except.ok _vc_channel =>
    match env.permissions with
    | some vc_permission =>
      if vc_permission.manage_channels then
        ([Effect.interactionRespondModal "rename_title" "rename_text"],
          if env.respond_modal_ok then Except.ok () else Except.error "ダイアログの作成に失敗")
      else
        ([Effect.interactionRespondMessage true "❌VCのオーナーのみが名前を変更できます"],
          if env.respond_owner_ok then Except.ok () else Except.error "エラー内容の応答に失敗")
    | none =>
      ([Effect.interactionRespondMessage true "❌VCのオーナーのみが名前を変更できます"],
        if env.respond_owner_ok then Except.ok () else Except.error "エラー内容の応答に失敗")

/-- Results of the platform calls `rename_vc` can make. -/
structure RenameVcEnv where
  get_vc_env : GetVcEnv
  permissions : Option Permissions
  edit_ok : Bool
  respond_dissolved_ok : Bool
  respond_owner_ok : Bool
  respond_done_ok : Bool

/-- The `find_map` over the submitted action rows looking for the input text
with custom id `rename_text`. -/
def find_rename_text (components : List (List ActionRowComponent)) : Option String :=
  (components.map id).flatten.findSome? (fun c =>
    match c with
    | ActionRowComponent.inputText custom_id value =>
      if custom_id = "rename_text" then some value else none
    | ActionRowComponent.otherComponent => none)

/-- `rename_vc` (lines 317–388): re-resolve the bound voice channel,
re-check `manage_channels` (a fetch failure propagates as an error via `?`),
extract the submitted `rename_text` value (absence propagates as an error),
rename the voice channel and confirm publicly. -/
def rename_vc (st : HandlerState) (env : RenameVcEnv) (interaction : ModalInteraction) :
    List Effect × Except String Unit :=
  match get_vc st env.get_vc_env interaction.channel_id with
  | Except.error _ =>
    ([Effect.interactionRespondMessage true "❌そのVCは既に解散しています"],
      if env.respond_dissolved_ok then Except.ok () else Except.error "エラー内容の応答に失敗")
  | Except.ok vc_channel =>
    match env.permissions with
    | none => ([], Except.error "VCチャンネルのパーミッション取得に失敗")
    | some vc_permission =>
      if vc_permission.manage_channels then
        match find_rename_text interaction.components with
        | none => ([], Except.error "コンポーネントが見つかりません")
        | some name =>
          if env.edit_ok = false then
            ([Effect.editChannel vc_channel.id name], Except.error "VC名前変更に失敗")
          else
            ([Effect.editChannel vc_channel.id name,
              Effect.interactionRespondMessage false
                ("✅" ++ mention_user interaction.user_id ++ " が名前を変更しました")],
              if env.respond_done_ok then Except.ok () else Except.error "結果の応答に失敗")
      else
        ([Effect.interactionRespondMessage true "❌VCのオーナーのみが名前を変更できます"],
          if env.respond_owner_ok then Except.ok () else Except.error "エラー内容の応答に失敗")

/-- Results of the platform calls `finalize_agenda_message` can make.
`messages` is the result of fetching the 5 most recent messages;
`thread_channel` is the result of `to_channel` on the thread. -/
structure FinalizeEnv where
  messages : Option (List Message)
  delete_agenda_ok : Bool
  thread_members : Option (List ThreadMember)
  thread_channel : Option Channel
  edit_agenda_ok : Bool

/-- `finalize_agenda_message` (lines 391–455): fetch the last 5 messages;
return `false` when no agenda message is registered; with no human message
delete the agenda message (failure only logged) and signal thread deletion
exactly when at most 2 messages were fetched; with human activity edit the
agenda message into the closing summary and never signal deletion. -/
def finalize_agenda_message (st : HandlerState) (env : FinalizeEnv)
    (thread_channel_id : ChannelId) : List Effect × Except String Bool :=
  match env.messages with
  | none => ([], Except.error "メッセージ取得に失敗")
  | some messages =>
    match st.thread_to_agenda_message thread_channel_id with
    | none => ([], Except.ok false)
    | some message =>
      let should_delete_agenda_message := !(messages.any (fun m => !m.author_bot))
      if should_delete_agenda_message then
        ([Effect.deleteMessage message.id], Except.ok (decide (messages.length ≤ 2)))
      else
        match env.thread_members with
        | none => ([], Except.error "メンバー取得に失敗")
        | some members =>
          match env.thread_channel with
          | none => ([], Except.error "チャンネルの取得に失敗")
          | some ch =>
            let thread_name :=
              match ch with
              | Channel.guild guild_channel => guild_channel.name
              | Channel.other => "不明なVC"
            match st.bot_user_id with
            | none => ([], Except.error "自身のBotユーザーの取得に失敗")
            | some bot =>
              ([Effect.editMessage message.id
                  (closing_content thread_name
                    (((members.filterMap ThreadMember.user_id).filter (fun m => m ≠ bot))))],
                Except.ok false)

/-- `ready` (lines 461–467): record the bot's own user id. -/
def ready (st : HandlerState) (bot_id : UserId) : HandlerState × List Effect :=
  ({ st with bot_user_id := some bot_id }, [])

/-- `interaction_create` (lines 470–495): dispatch on the interaction kind
and custom id; errors are logged and dropped. -/
def interaction_component (st : HandlerState) (env : ButtonEnv)
    (interaction : ComponentInteraction) : HandlerState × List Effect :=
  if interaction.custom_id = "rename_button" then
    (st, (button_pressed st env interaction).1)
  else
    (st, [])

/-- The modal-submit half of `interaction_create` (lines 483–492). -/
def interaction_modal (st : HandlerState) (env : RenameVcEnv)
    (interaction : ModalInteraction) : HandlerState × List Effect :=
  if interaction.custom_id = "rename_title" then
    (st, (rename_vc st env interaction).1)
  else
    (st, [])

/-- `channel_delete` (lines 498–551): on deletion of a bound custom voice
channel run finalization; on `should_delete` delete the thread, otherwise
archive it; a finalization error counts as `should_delete = false`. -/
def channel_delete (cfg : AppConfig) (st : HandlerState) (env : FinalizeEnv)
    (vc_channel : GuildChannel) : HandlerState × List Effect :=
  if is_custom_vc cfg vc_channel = false then
    (st, [])
  else
    match st.vc_to_thread vc_channel.id with
    | none => (st, [])
    | some thread_channel_id =>
      let fr := finalize_agenda_message st env thread_channel_id
      let should_delete :=
        match fr.2 with
        | Except.ok del => del
        | Except.error _ => false
      if should_delete then
        (st, fr.1 ++ [Effect.deleteChannel thread_channel_id])
      else
        (st, fr.1 ++ [Effect.editThread thread_channel_id none (some true)])

/-- `channel_update` (lines 554–574): rename the bound thread when a custom
voice channel is updated. -/
def channel_update (cfg : AppConfig) (st : HandlerState) (env : RenameThreadEnv)
    (new : Channel) : HandlerState × List Effect :=
  match new with
  | Channel.other => (st, [])
  | Channel.guild vc_channel =>
    if is_custom_vc cfg vc_channel = false then
      (st, [])
    else
      (st, (rename_thread st env vc_channel.id).1)

/-- A guild member (only the user id is consulted). -/
structure Member where
  user_id : UserId
  deriving DecidableEq, Repr

/-- A voice state update payload: the channel joined and the member. -/
structure VoiceState where
  channel_id : Option ChannelId
  member : Option Member
  deriving DecidableEq, Repr

/-- Results of the platform calls `voice_state_update` can make:
`channel_fetch` is `to_channel(..)` on the joined channel. -/
structure VoiceEnv where
  channel_fetch : Option Channel
  create : CreateEnv

/-- `voice_state_update` (lines 577–611): fetch the joined channel, gate on
`is_custom_vc`, then run `create_or_mention_thread`. -/
def voice_state_update (cfg : AppConfig) (st : HandlerState) (env : VoiceEnv)
    (new : VoiceState) : HandlerState × List Effect :=
  match new.channel_id, new.member with
  | some vc_channel_id, some member =>
    match env.channel_fetch with
    | none => (st, [])
    | some Channel.other => (st, [])
    | some (Channel.guild vc_channel) =>
      if is_custom_vc cfg vc_channel = false then
        (st, [])
      else
        let r := create_or_mention_thread cfg st env.create vc_channel_id member.user_id
        (r.1, r.2.1)
  | _, _ => (st, [])

/-- One inbound gateway event together with the environment (platform call
results) its handling will consume. -/
inductive Event where
  | evReady (bot_id : UserId)
  | evInteractionComponent (env : ButtonEnv) (interaction : ComponentInteraction)
  | evInteractionModal (env : RenameVcEnv) (interaction : ModalInteraction)
  | evChannelDelete (env : FinalizeEnv) (vc_channel : GuildChannel)
  | evChannelUpdate (env : RenameThreadEnv) (new : Channel)
  | evVoiceStateUpdate (env : VoiceEnv) (new : VoiceState)

/-- The dispatcher: one step of the handler on one gateway event. -/
def step (cfg : AppConfig) (st : HandlerState) : Event → HandlerState × List Effect
  | Event.evReady bot_id => ready st bot_id
  | Event.evInteractionComponent env interaction => interaction_component st env interaction
  | Event.evInteractionModal env interaction => interaction_modal st env interaction
  | Event.evChannelDelete env vc_channel => channel_delete cfg st env vc_channel
  | Event.evChannelUpdate env new => channel_update cfg st env new
  | Event.evVoiceStateUpdate env new => voice_state_update cfg st env new

/-! ### Lock/suspension traces

Each handler method is also transcribed, in source order, into the sequence
of its mutex acquisitions/releases and its `.await` suspension points
(`Mutex::lock().await` is a suspension followed by an acquisition; a guard's
release happens where Rust drops it: at the end of the statement for the
copy-out lookups and inserts, at the end of the function for the named guard
in `finalize_agenda_message`).  Branch choices are the `Bool` parameters;
error exits merely truncate a trace, so only paths reaching each lock scope
are distinguished. -/

/-- The four mutexes of the handler. -/
inductive MutexName where
  | botUserId
  | vcToThread
  | threadToVc
  | threadToAgendaMessage
  deriving DecidableEq, Repr

/-- A lock acquisition, a lock release, or an `.await` suspension point. -/
inductive SyncEvent where
  | acquire (m : MutexName)
  | release (m : MutexName)
  | suspendPoint
  deriving DecidableEq, Repr

/-- Checks, tracking the set of held mutexes, that every suspension point in
the trace occurs while only mutexes from `allowed` are held. -/
def suspendsHoldOnly (allowed : List MutexName) : List MutexName → List SyncEvent → Bool
  | _, [] => true
  | held, SyncEvent.acquire m :: rest => suspendsHoldOnly allowed (m :: held) rest
  | held, SyncEvent.release m :: rest => suspendsHoldOnly allowed (held.erase m) rest
  | held, SyncEvent.suspendPoint :: rest =>
    held.all (fun m => allowed.contains m) && suspendsHoldOnly allowed held rest

/-- No mutex at all is held across a suspension point. -/
def noLockAcrossSuspend (tr : List SyncEvent) : Bool :=
  suspendsHoldOnly [] [] tr

/-- The copy-out lookup `self.<map>.lock().await.get(..).map(..)`: suspend,
acquire, release at end of statement. -/
def lookupSync (m : MutexName) : List SyncEvent :=
  [SyncEvent.suspendPoint, SyncEvent.acquire m, SyncEvent.release m]

/-- Trace of `create_or_mention_thread`: the lookup, then either the bound
branch (member fetch, optional join notice send) or the creation branch
(name fetch, three sends, thread creation, then the three short inserts). -/
def create_or_mention_thread_sync (bound member_present : Bool) : List SyncEvent :=
  lookupSync MutexName.vcToThread ++
    (if bound then
      [SyncEvent.suspendPoint] ++ (if member_present then [] else [SyncEvent.suspendPoint])
    else
      [SyncEvent.suspendPoint, SyncEvent.suspendPoint, SyncEvent.suspendPoint,
        SyncEvent.suspendPoint, SyncEvent.suspendPoint] ++
        lookupSync MutexName.threadToVc ++
        lookupSync MutexName.vcToThread ++
        lookupSync MutexName.threadToAgendaMessage)

/-- Trace of `rename_thread`: lookup, then name fetch and thread edit. -/
def rename_thread_sync (bound : Bool) : List SyncEvent :=
  lookupSync MutexName.vcToThread ++
    (if bound then [SyncEvent.suspendPoint, SyncEvent.suspendPoint] else [])

/-- Trace of `get_vc`: lookup in `thread_to_vc`, then `to_channel`. -/
def get_vc_sync (found : Bool) : List SyncEvent :=
  lookupSync MutexName.threadToVc ++ (if found then [SyncEvent.suspendPoint] else [])

/-- Trace of `button_pressed`: `get_vc`, a lock-free permission check, then
exactly one interaction-response await on every path. -/
def button_pressed_sync (found : Bool) : List SyncEvent :=
  get_vc_sync found ++ [SyncEvent.suspendPoint]

/-- Trace of `rename_vc`: `get_vc`, a lock-free permission check, then the
response/edit awaits of the taken path. -/
def rename_vc_sync (found perm_ok granted has_field edit_ok : Bool) : List SyncEvent :=
  get_vc_sync found ++
    (if found = false then [SyncEvent.suspendPoint]
    else if perm_ok = false then []
    else if granted = false then [SyncEvent.suspendPoint]
    else if has_field = false then []
    else if edit_ok = false then [SyncEvent.suspendPoint]
    else [SyncEvent.suspendPoint, SyncEvent.suspendPoint])

/-- Trace of `finalize_agenda_message`: message fetch, then the
`thread_to_agenda_message` guard is acquired and held to the end of the
function, across the agenda-message delete await (no-human path) or across
the member fetch, channel fetch, bot-id lock and agenda-message edit awaits
(human path). -/
def finalize_agenda_message_sync (registered no_human : Bool) : List SyncEvent :=
  [SyncEvent.suspendPoint, SyncEvent.suspendPoint,
    SyncEvent.acquire MutexName.threadToAgendaMessage] ++
    (if registered = false then []
    else if no_human then [SyncEvent.suspendPoint]
    else
      [SyncEvent.suspendPoint, SyncEvent.suspendPoint, SyncEvent.suspendPoint,
        SyncEvent.acquire MutexName.botUserId, SyncEvent.release MutexName.botUserId,
        SyncEvent.suspendPoint]) ++
    [SyncEvent.release MutexName.threadToAgendaMessage]

/-- Trace of `channel_delete`: lookup, finalization, then the thread
delete/archive await. -/
def channel_delete_sync (found registered no_human : Bool) : List SyncEvent :=
  lookupSync MutexName.vcToThread ++
    (if found then
      finalize_agenda_message_sync registered no_human ++ [SyncEvent.suspendPoint]
    else [])

/-- Trace of `ready`: the bot-id lock is held only for the store. -/
def ready_sync : List SyncEvent :=
  [SyncEvent.suspendPoint, SyncEvent.acquire MutexName.botUserId,
    SyncEvent.release MutexName.botUserId]

/-! ### Invariants -/

/-- Invariant A: the two channel maps are converses of each other. -/
def Bidir (st : HandlerState) : Prop :=
  ∀ v t, st.vc_to_thread v = some t ↔ st.thread_to_vc t = some v

/-- The platform hands out fresh snowflake ids: a thread id returned by
`create_public_thread` is not yet known to the handler's maps. -/
def FreshThread (st : HandlerState) (env : CreateEnv) : Prop :=
  ∀ t, env.create_thread = some t →
    st.thread_to_vc t = none ∧ st.thread_to_agenda_message t = none

/-- Freshness of the environment carried by an event (only voice-state
updates can create threads). -/
def EventFresh (st : HandlerState) : Event → Prop
  | Event.evVoiceStateUpdate env _ => FreshThread st env.create
  | _ => True

/-- Number of interaction responses (messages or modals) in an effect list. -/
def responseCount (l : List Effect) : Nat :=
  (l.filter (fun e =>
    match e with
    | Effect.interactionRespondMessage _ _ => true
    | Effect.interactionRespondModal _ _ => true
    | _ => false)).length

/-- Outbound chat messages among the attempted effects. -/
def outboundMessageCount (l : List Effect) : Nat :=
  (l.filter (fun e =>
    match e with
    | Effect.sendMessage _ _ => true
    | Effect.sendMessageWithButton _ _ _ => true
    | _ => false)).length

/-- Thread creations among the attempted effects. -/
def threadCreateCount (l : List Effect) : Nat :=
  (l.filter (fun e =>
    match e with
    | Effect.createPublicThread _ _ _ => true
    | _ => false)).length

/-! ### Concrete scenario values (used by witnesses and counterexamples) -/

/-- A concrete configuration: category 1, channel 2 ignored, announcements in 3. -/
def cfgC : AppConfig := { discord := { vc_category := 1, vc_ignored_channels := [2], thread_channel := 3 } }

/-- A concrete custom voice channel under category 1. -/
def gcC : GuildChannel := { id := 20, kind := ChannelKind.voice, parent_id := some 1, name := "ゲーム" }

/-- A concrete bot-authored agenda message. -/
def agendaC : Message := { id := 500, author_bot := true }

/-- A state with voice channel 20 bound to thread 10 (agenda message 500). -/
def stBoundC : HandlerState :=
  { bot_user_id := some 99,
    vc_to_thread := fun v => if v = 20 then some 10 else none,
    thread_to_vc := fun t => if t = 10 then some 20 else none,
    thread_to_agenda_message := fun t => if t = 10 then some agendaC else none }

/-- The empty starting state. -/
def stEmptyC : HandlerState :=
  { bot_user_id := none,
    vc_to_thread := fun _ => none,
    thread_to_vc := fun _ => none,
    thread_to_agenda_message := fun _ => none }

/-- A concrete modal submission on thread 10 by user 77 carrying a name. -/
def miC : ModalInteraction :=
  { custom_id := "rename_title", channel_id := 10, user_id := 77,
    components := [[ActionRowComponent.inputText "rename_text" "カラオケ"]] }

/-- A concrete button press on thread 10 by user 77. -/
def ciC : ComponentInteraction :=
  { custom_id := "rename_button", channel_id := 10, user_id := 77 }

/-- A button environment where everything succeeds and the user is owner. -/
def benvC : ButtonEnv :=
  { get_vc_env := { to_channel_result := some (Channel.guild gcC) },
    permissions := some { manage_channels := true },
    respond_dissolved_ok := true, respond_owner_ok := true, respond_modal_ok := true }

/-- A modal environment where fetching the user's permissions fails. -/
def menvPermFailC : RenameVcEnv :=
  { get_vc_env := { to_channel_result := some (Channel.guild gcC) },
    permissions := none,
    edit_ok := true, respond_dissolved_ok := true, respond_owner_ok := true,
    respond_done_ok := true }

/-- A modal environment where the user lacks `manage_channels`. -/
def menvDeniedC : RenameVcEnv :=
  { get_vc_env := { to_channel_result := some (Channel.guild gcC) },
    permissions := some { manage_channels := false },
    edit_ok := true, respond_dissolved_ok := true, respond_owner_ok := true,
    respond_done_ok := true }

/-- A creation environment where every platform call succeeds. -/
def cenvOkC : CreateEnv :=
  { thread_members := some [{ user_id := some 77 }],
    join_notice_ok := true,
    channel_name := some "ゲーム",
    send_agenda := some agendaC,
    create_thread := some 10,
    vc_notice_ok := true, welcome_ok := true }

/-- A voice-state environment resolving channel 20 and creating thread 10. -/
def venvC : VoiceEnv := { channel_fetch := some (Channel.guild gcC), create := cenvOkC }

/-- User 77 joining voice channel 20. -/
def vsC : VoiceState := { channel_id := some 20, member := some { user_id := 77 } }

/-- A finalization environment whose thread-member fetch fails after a human
message was found in the window. -/
def fenvMembersFailC : FinalizeEnv :=
  { messages := some [{ id := 600, author_bot := false }],
    delete_agenda_ok := true,
    thread_members := none,
    thread_channel := some (Channel.guild gcC),
    edit_agenda_ok := true }

/-- A finalization environment with an all-bot window of 2 messages. -/
def fenvQuietC : FinalizeEnv :=
  { messages := some [{ id := 600, author_bot := true }, { id := 601, author_bot := true }],
    delete_agenda_ok := true,
    thread_members := some [{ user_id := some 77 }, { user_id := some 99 }],
    thread_channel := some (Channel.guild gcC),
    edit_agenda_ok := true }

/-! ### Helper lemmas -/

/-- The first component of `channel_delete` is always the unchanged state. -/
theorem channel_delete_fst (cfg : AppConfig) (st : HandlerState) (env : FinalizeEnv)
    (ch : GuildChannel) : (channel_delete cfg st env ch).1 = st := by
  unfold channel_delete
  split
  · rfl
  · split
    · rfl
    · dsimp only
      split <;> rfl

/-- The first component of `channel_update` is always the unchanged state. -/
theorem channel_update_fst (cfg : AppConfig) (st : HandlerState) (env : RenameThreadEnv)
    (new : Channel) : (channel_update cfg st env new).1 = st := by
  unfold channel_update
  split
  · rfl
  · split <;> rfl

/-- The first component of `interaction_component` is always the unchanged state. -/
theorem interaction_component_fst (st : HandlerState) (env : ButtonEnv)
    (i : ComponentInteraction) : (interaction_component st env i).1 = st := by
  unfold interaction_component
  split <;> rfl

/-- The first component of `interaction_modal` is always the unchanged state. -/
theorem interaction_modal_fst (st : HandlerState) (env : RenameVcEnv)
    (i : ModalInteraction) : (interaction_modal st env i).1 = st := by
  unfold interaction_modal
  split <;> rfl

/-! ### Claim theorems -/

/-- C1: for every thread, `finalize_agenda_message` returns `true` (signals
thread deletion) if and only if an agenda message is registered for the
thread, none of the fetched last-5 messages was authored by a non-bot user,
and at most 2 messages were fetched; in every other situation (no registered
agenda message, a 3-message all-bot window, or any human-authored message in
the window) it does not signal deletion. -/
theorem finalize_signals_deletion_iff (st : HandlerState) (env : FinalizeEnv) (t : ChannelId) :
    (finalize_agenda_message st env t).2 = Except.ok true ↔
      (st.thread_to_agenda_message t).isSome = true ∧
        ∃ msgs, env.messages = some msgs ∧ (∀ m ∈ msgs, m.author_bot = true) ∧
          msgs.length ≤ 2 := by
  unfold finalize_agenda_message
  cases hm : env.messages with
  | none => simp
  | some msgs =>
    cases ha : st.thread_to_agenda_message t with
    | none => simp
    | some message =>
      cases hany : msgs.any (fun m => !m.author_bot) with
      | false =>
        have hall : ∀ m ∈ msgs, m.author_bot = true := by
          intro m hmem
          have := List.any_eq_false.mp hany m hmem
          simpa using this
        simp only [hany, Bool.not_false, if_true, Option.isSome_some, true_and,
          Option.some.injEq, Except.ok.injEq, decide_eq_true_eq]
        constructor
        · intro hle
          exact ⟨msgs, rfl, hall, hle⟩
        · rintro ⟨msgs2, h2, _, hle⟩
          cases h2
          exact hle
      | true =>
        have hnall : ¬ ∀ m ∈ msgs, m.author_bot = true := by
          rcases List.any_eq_true.mp hany with ⟨m, hmem, hb⟩
          intro hall
          rw [hall m hmem] at hb
          simp at hb
        cases env.thread_members with
        | none => simp [hany, hnall]
        | some members =>
          cases env.thread_channel with
          | none => simp [hany, hnall]
          | some ch =>
            cases st.bot_user_id with
            | none => simp [hany, hnall]
            | some bot => simp [hany, hnall]

/-- C6: `is_custom_vc` is true exactly for voice channels whose parent is the
configured category and whose id is not ignored (false in particular without
a parent), and each lifecycle event handler returns unchanged — creating no
binding — when the classifier is false. -/
theorem is_custom_vc_spec (cfg : AppConfig) (ch : GuildChannel) (st : HandlerState)
    (fenv : FinalizeEnv) (renv : RenameThreadEnv) (venv : VoiceEnv) (vs : VoiceState)
    (gc : GuildChannel) :
    (is_custom_vc cfg ch = true ↔
      ch.kind = ChannelKind.voice ∧ ch.parent_id = some cfg.discord.vc_category ∧
        cfg.discord.vc_ignored_channels.contains ch.id = false) ∧
    (is_custom_vc cfg ch = false → channel_delete cfg st fenv ch = (st, [])) ∧
    (is_custom_vc cfg ch = false → channel_update cfg st renv (Channel.guild ch) = (st, [])) ∧
    (venv.channel_fetch = some (Channel.guild gc) → is_custom_vc cfg gc = false →
      voice_state_update cfg st venv vs = (st, [])) := by
  refine ⟨?_, ?_, ?_, ?_⟩
  · unfold is_custom_vc
    rcases ch with ⟨chid, chkind, chparent, chname⟩
    cases chparent with
    | none => simp
    | some parent_channel_id =>
      by_cases hk : chkind = ChannelKind.voice
      · subst hk
        by_cases hp : parent_channel_id = cfg.discord.vc_category
        · subst hp
          by_cases hi : cfg.discord.vc_ignored_channels.contains chid = true <;>
            simp [hi]
        · simp [hp]
      · simp [hk]
  · intro h
    unfold channel_delete
    rw [h]
    simp
  · intro h
    unfold channel_update
    simp [h]
  · intro hfetch hgc
    rcases vs with ⟨vcid, mem⟩
    cases vcid with
    | none => rfl
    | some vc_channel_id =>
      cases mem with
      | none => rfl
      | some member =>
        unfold voice_state_update
        rw [hfetch]
        simp [hgc]

/-- Updating both channel maps with a fresh pair keeps them converses. -/
theorem bidir_update (st : HandlerState) (v thr : ChannelId)
    (hB : Bidir st) (hv : st.vc_to_thread v = none) (ht : st.thread_to_vc thr = none) :
    ∀ a b, updateMap st.vc_to_thread v thr a = some b ↔
      updateMap st.thread_to_vc thr v b = some a := by
  intro a b
  unfold updateMap
  by_cases hav : a = v
  · subst hav
    by_cases hbt : b = thr
    · subst hbt
      simp
    · rw [if_pos rfl, if_neg hbt]
      constructor
      · intro h
        exact absurd (Option.some.inj h) (fun he => hbt he.symm)
      · intro h
        have := (hB a b).mpr h
        rw [hv] at this
        cases this
  · by_cases hbt : b = thr
    · subst hbt
      rw [if_neg hav, if_pos rfl]
      constructor
      · intro h
        have := (hB a b).mp h
        rw [ht] at this
        cases this
      · intro h
        exact absurd (Option.some.inj h) (fun he => hav he.symm)
    · rw [if_neg hav, if_neg hbt]
      exact hB a b

/-- `create_or_mention_thread` preserves Invariant A when the platform hands
out a fresh thread id. -/
theorem create_preserves_bidir (cfg : AppConfig) (st : HandlerState) (env : CreateEnv)
    (v : ChannelId) (u : UserId) (hB : Bidir st) (hF : FreshThread st env) :
    Bidir (create_or_mention_thread cfg st env v u).1 := by
  unfold create_or_mention_thread
  cases hv : st.vc_to_thread v with
  | some thread_id =>
    cases env.thread_members with
    | none => exact hB
    | some members =>
      dsimp only
      split <;> exact hB
  | none =>
    cases env.send_agenda with
    | none => exact hB
    | some message =>
      cases hthr : env.create_thread with
      | none => exact hB
      | some thread =>
        dsimp only
        by_cases hn : env.vc_notice_ok = false
        · simp only [hn, if_true]
          exact hB
        · simp only [hn, if_false]
          by_cases hw : env.welcome_ok = false
          · simp only [hw, if_true]
            exact hB
          · simp only [hw, if_false]
            exact bidir_update st v thread hB hv (hF thread hthr).1

/-- C2: every gateway event handled by the dispatcher preserves the
bidirectional round-trip invariant between `vc_to_thread` and
`thread_to_vc`, the platform supplying fresh thread ids. -/
theorem step_preserves_bidir (cfg : AppConfig) (st : HandlerState) (e : Event)
    (hB : Bidir st) (hF : EventFresh st e) :
    Bidir (step cfg st e).1 := by
  cases e with
  | evReady bot_id => exact hB
  | evInteractionComponent env i =>
    rw [show (step cfg st (Event.evInteractionComponent env i)).1 =
      st from interaction_component_fst st env i]
    exact hB
  | evInteractionModal env i =>
    rw [show (step cfg st (Event.evInteractionModal env i)).1 =
      st from interaction_modal_fst st env i]
    exact hB
  | evChannelDelete env ch =>
    rw [show (step cfg st (Event.evChannelDelete env ch)).1 =
      st from channel_delete_fst cfg st env ch]
    exact hB
  | evChannelUpdate env new =>
    rw [show (step cfg st (Event.evChannelUpdate env new)).1 =
      st from channel_update_fst cfg st env new]
    exact hB
  | evVoiceStateUpdate env new =>
    have hF2 : FreshThread st env.create := hF
    rcases new with ⟨vcid, mem⟩
    cases vcid with
    | none => exact hB
    | some vc_channel_id =>
      cases mem with
      | none => exact hB
      | some member =>
        show Bidir (voice_state_update cfg st env
          { channel_id := some vc_channel_id, member := some member }).1
        unfold voice_state_update
        cases hcf : env.channel_fetch with
        | none =>
          simp only [hcf]
          exact hB
        | some ch =>
          cases ch with
          | other =>
            simp only [hcf]
            exact hB
          | guild vc_channel =>
            simp only [hcf]
            by_cases hc : is_custom_vc cfg vc_channel = false
            · simp only [hc, if_true]
              exact hB
            · simp only [hc, if_false]
              exact create_preserves_bidir cfg st env.create vc_channel_id member.user_id hB hF2

/-- A point insert at a key the map does not yet hold preserves every entry. -/
theorem updateMap_preserves {β : Type} (m : ChannelId → Option β) (k0 : ChannelId) (v0 : β)
    (h0 : m k0 = none) : ∀ k w, m k = some w → updateMap m k0 v0 k = some w := by
  intro k w h
  unfold updateMap
  by_cases hk : k = k0
  · subst hk
    rw [h] at h0
    cases h0
  · rw [if_neg hk]
    exact h

/-- `create_or_mention_thread` never removes a map entry (fresh thread ids). -/
theorem create_preserves_entries (cfg : AppConfig) (st : HandlerState) (env : CreateEnv)
    (v : ChannelId) (u : UserId) (hF : FreshThread st env) :
    (∀ k w, st.vc_to_thread k = some w →
      ((create_or_mention_thread cfg st env v u).1).vc_to_thread k = some w) ∧
    (∀ k w, st.thread_to_vc k = some w →
      ((create_or_mention_thread cfg st env v u).1).thread_to_vc k = some w) ∧
    (∀ k m, st.thread_to_agenda_message k = some m →
      ((create_or_mention_thread cfg st env v u).1).thread_to_agenda_message k = some m) := by
  unfold create_or_mention_thread
  cases hv : st.vc_to_thread v with
  | some thread_id =>
    cases env.thread_members with
    | none => exact ⟨fun k w h => h, fun k w h => h, fun k m h => h⟩
    | some members =>
      dsimp only
      split <;> exact ⟨fun k w h => h, fun k w h => h, fun k m h => h⟩
  | none =>
    cases env.send_agenda with
    | none => exact ⟨fun k w h => h, fun k w h => h, fun k m h => h⟩
    | some message =>
      cases hthr : env.create_thread with
      | none => exact ⟨fun k w h => h, fun k w h => h, fun k m h => h⟩
      | some thread =>
        dsimp only
        by_cases hn : env.vc_notice_ok = false
        · simp only [hn, if_true]
          exact ⟨fun k w h => h, fun k w h => h, fun k m h => h⟩
        · simp only [hn, if_false]
          by_cases hw : env.welcome_ok = false
          · simp only [hw, if_true]
            exact ⟨fun k w h => h, fun k w h => h, fun k m h => h⟩
          · simp only [hw, if_false]
            refine ⟨fun k w h => updateMap_preserves st.vc_to_thread v thread hv k w h,
              fun k w h => updateMap_preserves st.thread_to_vc thread v (hF thread hthr).1 k w h,
              fun k m h =>
                updateMap_preserves st.thread_to_agenda_message thread message
                  (hF thread hthr).2 k m h⟩

/-- C7: no dispatcher operation removes an entry from any of the three maps —
every entry present before an event is present after it (the platform
supplying fresh thread ids); in particular finalization and channel deletion
leave the retired binding's three entries in place. -/
theorem step_never_removes_entries (cfg : AppConfig) (st : HandlerState) (e : Event)
    (hF : EventFresh st e) :
    (∀ k w, st.vc_to_thread k = some w → ((step cfg st e).1).vc_to_thread k = some w) ∧
    (∀ k w, st.thread_to_vc k = some w → ((step cfg st e).1).thread_to_vc k = some w) ∧
    (∀ k m, st.thread_to_agenda_message k = some m →
      ((step cfg st e).1).thread_to_agenda_message k = some m) := by
  cases e with
  | evReady bot_id => exact ⟨fun k w h => h, fun k w h => h, fun k m h => h⟩
  | evInteractionComponent env i =>
    rw [show (step cfg st (Event.evInteractionComponent env i)).1 =
      st from interaction_component_fst st env i]
    exact ⟨fun k w h => h, fun k w h => h, fun k m h => h⟩
  | evInteractionModal env i =>
    rw [show (step cfg st (Event.evInteractionModal env i)).1 =
      st from interaction_modal_fst st env i]
    exact ⟨fun k w h => h, fun k w h => h, fun k m h => h⟩
  | evChannelDelete env ch =>
    rw [show (step cfg st (Event.evChannelDelete env ch)).1 =
      st from channel_delete_fst cfg st env ch]
    exact ⟨fun k w h => h, fun k w h => h, fun k m h => h⟩
  | evChannelUpdate env new =>
    rw [show (step cfg st (Event.evChannelUpdate env new)).1 =
      st from channel_update_fst cfg st env new]
    exact ⟨fun k w h => h, fun k w h => h, fun k m h => h⟩
  | evVoiceStateUpdate env new =>
    have hF2 : FreshThread st env.create := hF
    rcases new with ⟨vcid, mem⟩
    cases vcid with
    | none => exact ⟨fun k w h => h, fun k w h => h, fun k m h => h⟩
    | some vc_channel_id =>
      cases mem with
      | none => exact ⟨fun k w h => h, fun k w h => h, fun k m h => h⟩
      | some member =>
        show (∀ k w, st.vc_to_thread k = some w →
            ((voice_state_update cfg st env
              { channel_id := some vc_channel_id, member := some member }).1).vc_to_thread k =
              some w) ∧
          (∀ k w, st.thread_to_vc k = some w →
            ((voice_state_update cfg st env
              { channel_id := some vc_channel_id, member := some member }).1).thread_to_vc k =
              some w) ∧
          (∀ k m, st.thread_to_agenda_message k = some m →
            ((voice_state_update cfg st env
              { channel_id := some vc_channel_id, member := some member
                }).1).thread_to_agenda_message k = some m)
        unfold voice_state_update
        cases hcf : env.channel_fetch with
        | none =>
          simp only [hcf]
          exact ⟨fun k w h => h, fun k w h => h, fun k m h => h⟩
        | some ch =>
          cases ch with
          | other =>
            simp only [hcf]
            exact ⟨fun k w h => h, fun k w h => h, fun k m h => h⟩
          | guild vc_channel =>
            simp only [hcf]
            by_cases hc : is_custom_vc cfg vc_channel = false
            · simp only [hc, if_true]
              exact ⟨fun k w h => h, fun k w h => h, fun k m h => h⟩
            · simp only [hc, if_false]
              exact create_preserves_entries cfg st env.create vc_channel_id member.user_id hF2

/-- C3: on a voice channel that already has a binding,
`create_or_mention_thread` creates no thread and mutates none of the three
maps; when the thread-member fetch succeeds it posts exactly a join notice
if the joining member is absent from the fetched members and performs no
side effect otherwise, and a failed fetch produces no side effect at all. -/
theorem create_or_mention_thread_idempotent (cfg : AppConfig) (st : HandlerState)
    (env : CreateEnv) (v : ChannelId) (u : UserId) (tid : ChannelId)
    (h : st.vc_to_thread v = some tid) :
    (create_or_mention_thread cfg st env v u).1 = st ∧
    (∀ c mid nm,
      Effect.createPublicThread c mid nm ∉ (create_or_mention_thread cfg st env v u).2.1) ∧
    (∀ members, env.thread_members = some members →
      (create_or_mention_thread cfg st env v u).2.1 =
        if (members.filterMap ThreadMember.user_id).any (fun w => w == u) then []
        else [Effect.sendMessage tid (join_notice_content u)]) ∧
    (env.thread_members = none → (create_or_mention_thread cfg st env v u).2.1 = []) := by
  unfold create_or_mention_thread
  rw [h]
  cases hm : env.thread_members with
  | none =>
    refine ⟨rfl, ?_, ?_, fun _ => rfl⟩
    · intro c mid nm hmem
      simp at hmem
    · intro members hmem
      cases hmem
  | some members =>
    dsimp only
    by_cases hp : (members.filterMap ThreadMember.user_id).any (fun w => w == u) = true
    · refine ⟨?_, ?_, ?_, ?_⟩
      · simp [hp]
      · intro c mid nm hmem
        rw [if_pos hp] at hmem
        simp at hmem
      · intro members2 hm2
        obtain rfl : members = members2 := Option.some.inj hm2
        simp [hp]
      · intro hnone
        cases hnone
    · refine ⟨?_, ?_, ?_, ?_⟩
      · simp [hp]
      · intro c mid nm hmem
        rw [if_neg hp] at hmem
        simp at hmem
      · intro members2 hm2
        obtain rfl : members = members2 := Option.some.inj hm2
        simp [hp]
      · intro hnone
        cases hnone

/-- C4: a modal submission from a user who lacks `manage_channels` on the
(still-resolvable) bound voice channel at submit time is answered with the
ephemeral owner-only error and no channel rename is attempted, regardless of
any earlier check in `button_pressed`. -/
theorem rename_vc_rechecks_permission (st : HandlerState) (env : RenameVcEnv)
    (mi : ModalInteraction) (vcid : ChannelId) (gc : GuildChannel) (p : Permissions)
    (h1 : st.thread_to_vc mi.channel_id = some vcid)
    (h2 : env.get_vc_env.to_channel_result = some (Channel.guild gc))
    (h3 : env.permissions = some p)
    (h4 : p.manage_channels = false) :
    (rename_vc st env mi).1 =
      [Effect.interactionRespondMessage true "❌VCのオーナーのみが名前を変更できます"] ∧
    (∀ c nm, Effect.editChannel c nm ∉ (rename_vc st env mi).1) := by
  have hres : (rename_vc st env mi).1 =
      [Effect.interactionRespondMessage true "❌VCのオーナーのみが名前を変更できます"] := by
    unfold rename_vc get_vc
    rw [h1, h2, h3]
    simp [h4]
  refine ⟨hres, ?_⟩
  intro c nm hmem
  rw [hres] at hmem
  simp at hmem

/-- `rename_vc` when the bound voice channel cannot be resolved. -/
theorem rename_vc_eq_of_vc_error (st : HandlerState) (menv : RenameVcEnv)
    (mi : ModalInteraction) (e : String)
    (h : get_vc st menv.get_vc_env mi.channel_id = Except.error e) :
    rename_vc st menv mi =
      ([Effect.interactionRespondMessage true "❌そのVCは既に解散しています"],
        if menv.respond_dissolved_ok then Except.ok ()
        else Except.error "エラー内容の応答に失敗") := by
  unfold rename_vc
  rw [h]

/-- `rename_vc` when the permission fetch fails. -/
theorem rename_vc_eq_of_perm_error (st : HandlerState) (menv : RenameVcEnv)
    (mi : ModalInteraction) (c : GuildChannel)
    (h : get_vc st menv.get_vc_env mi.channel_id = Except.ok c)
    (hp : menv.permissions = none) :
    rename_vc st menv mi = ([], Except.error "VCチャンネルのパーミッション取得に失敗") := by
  unfold rename_vc
  simp [h, hp]

/-- `rename_vc` when the user lacks `manage_channels`. -/
theorem rename_vc_eq_of_denied (st : HandlerState) (menv : RenameVcEnv)
    (mi : ModalInteraction) (c : GuildChannel) (p : Permissions)
    (h : get_vc st menv.get_vc_env mi.channel_id = Except.ok c)
    (hp : menv.permissions = some p) (hm : p.manage_channels = false) :
    rename_vc st menv mi =
      ([Effect.interactionRespondMessage true "❌VCのオーナーのみが名前を変更できます"],
        if menv.respond_owner_ok then Except.ok ()
        else Except.error "エラー内容の応答に失敗") := by
  unfold rename_vc
  simp [h, hp, hm]

/-- `rename_vc` when no `rename_text` field is present in the submission. -/
theorem rename_vc_eq_of_no_field (st : HandlerState) (menv : RenameVcEnv)
    (mi : ModalInteraction) (c : GuildChannel) (p : Permissions)
    (h : get_vc st menv.get_vc_env mi.channel_id = Except.ok c)
    (hp : menv.permissions = some p) (hm : p.manage_channels = true)
    (hf : find_rename_text mi.components = none) :
    rename_vc st menv mi = ([], Except.error "コンポーネントが見つかりません") := by
  unfold rename_vc
  simp [h, hp, hm, hf]

/-- `rename_vc` when the channel edit itself fails. -/
theorem rename_vc_eq_of_edit_error (st : HandlerState) (menv : RenameVcEnv)
    (mi : ModalInteraction) (c : GuildChannel) (p : Permissions) (nm : String)
    (h : get_vc st menv.get_vc_env mi.channel_id = Except.ok c)
    (hp : menv.permissions = some p) (hm : p.manage_channels = true)
    (hf : find_rename_text mi.components = some nm) (he : menv.edit_ok = false) :
    rename_vc st menv mi = ([Effect.editChannel c.id nm], Except.error "VC名前変更に失敗") := by
  unfold rename_vc
  simp [h, hp, hm, hf, he]

/-- `rename_vc` on the fully successful path. -/
theorem rename_vc_eq_of_success (st : HandlerState) (menv : RenameVcEnv)
    (mi : ModalInteraction) (c : GuildChannel) (p : Permissions) (nm : String)
    (h : get_vc st menv.get_vc_env mi.channel_id = Except.ok c)
    (hp : menv.permissions = some p) (hm : p.manage_channels = true)
    (hf : find_rename_text mi.components = some nm) (he : menv.edit_ok = true) :
    rename_vc st menv mi =
      ([Effect.editChannel c.id nm,
        Effect.interactionRespondMessage false
          ("✅" ++ mention_user mi.user_id ++ " が名前を変更しました")],
        if menv.respond_done_ok then Except.ok () else Except.error "結果の応答に失敗") := by
  unfold rename_vc
  simp [h, hp, hm, hf, he]

/-- C5 counterexample: when fetching the submitting user's permissions fails
during the modal submit, `rename_vc` propagates an error via `?` and sends no
interaction response at all, refuting "every failure path responds to the
interaction with an ephemeral error". -/
theorem rename_vc_perm_fetch_fails_silently :
    responseCount (rename_vc stBoundC menvPermFailC miC).1 = 0 ∧
    (rename_vc stBoundC menvPermFailC miC).2 =
      Except.error "VCチャンネルのパーミッション取得に失敗" :=
  ⟨rfl, rfl⟩

/-- C5 (amended): `button_pressed` responds to the interaction exactly once on
every path; `rename_vc` responds at most once, exactly once whenever it
completes successfully, but on a resolvable voice channel a failed
permission fetch or (for a permitted user) a missing `rename_text` field
propagates an error with no interaction response at all. -/
theorem rename_workflow_response_discipline (st : HandlerState) (benv : ButtonEnv)
    (menv : RenameVcEnv) (ci : ComponentInteraction) (mi : ModalInteraction) :
    responseCount (button_pressed st benv ci).1 = 1 ∧
    responseCount (rename_vc st menv mi).1 ≤ 1 ∧
    ((rename_vc st menv mi).2 = Except.ok () → responseCount (rename_vc st menv mi).1 = 1) ∧
    ((menv.permissions = none ∨
        (∃ p, menv.permissions = some p ∧ p.manage_channels = true ∧
          find_rename_text mi.components = none)) →
      (∃ c, get_vc st menv.get_vc_env mi.channel_id = Except.ok c) →
      responseCount (rename_vc st menv mi).1 = 0 ∧
        (rename_vc st menv mi).2 ≠ Except.ok ()) := by
  have hbutton : responseCount (button_pressed st benv ci).1 = 1 := by
    unfold button_pressed
    cases hb : get_vc st benv.get_vc_env ci.channel_id with
    | error e1 => simp [responseCount]
    | ok c =>
      cases benv.permissions with
      | none => simp [responseCount]
      | some p =>
        by_cases hp : p.manage_channels = true <;> simp [responseCount, hp]
  refine ⟨hbutton, ?_⟩
  cases hg : get_vc st menv.get_vc_env mi.channel_id with
  | error e1 =>
    rw [rename_vc_eq_of_vc_error st menv mi e1 hg]
    refine ⟨by simp [responseCount], fun _ => by simp [responseCount], ?_⟩
    rintro _ ⟨c, hc⟩
    cases hc
  | ok c =>
    cases hperm : menv.permissions with
    | none =>
      rw [rename_vc_eq_of_perm_error st menv mi c hg hperm]
      refine ⟨by simp [responseCount], ?_, fun _ _ => ⟨by simp [responseCount], by simp⟩⟩
      intro hok
      cases hok
    | some p =>
      cases hp : p.manage_channels with
      | false =>
        rw [rename_vc_eq_of_denied st menv mi c p hg hperm hp]
        refine ⟨by simp [responseCount], fun _ => by simp [responseCount], ?_⟩
        rintro (h | ⟨p2, hp2, hp2m, _⟩) _
        · cases h
        · obtain rfl : p = p2 := Option.some.inj hp2
          rw [hp] at hp2m
          cases hp2m
      | true =>
        cases hf : find_rename_text mi.components with
        | none =>
          rw [rename_vc_eq_of_no_field st menv mi c p hg hperm hp hf]
          refine ⟨by simp [responseCount], ?_, fun _ _ => ⟨by simp [responseCount], by simp⟩⟩
          intro hok
          cases hok
        | some nm =>
          cases he : menv.edit_ok with
          | false =>
            rw [rename_vc_eq_of_edit_error st menv mi c p nm hg hperm hp hf he]
            refine ⟨by simp [responseCount], ?_, ?_⟩
            · intro hok
              cases hok
            · rintro (h | ⟨p2, hp2, _, hf2⟩) _
              · cases h
              · cases hf2
          | true =>
            rw [rename_vc_eq_of_success st menv mi c p nm hg hperm hp hf he]
            refine ⟨by simp [responseCount], fun _ => by simp [responseCount], ?_⟩
            rintro (h | ⟨p2, hp2, _, hf2⟩) _
            · cases h
            · cases hf2

/-- C8 counterexample: a fully successful no-existing-binding run of
`create_or_mention_thread` attempts exactly three outbound messages (not
four) besides the single thread creation. -/
theorem create_thread_sends_three_messages :
    outboundMessageCount (create_or_mention_thread cfgC stEmptyC cenvOkC 20 77).2.1 = 3 ∧
    outboundMessageCount (create_or_mention_thread cfgC stEmptyC cenvOkC 20 77).2.1 ≠ 4 ∧
    threadCreateCount (create_or_mention_thread cfgC stEmptyC cenvOkC 20 77).2.1 = 1 := by
  refine ⟨rfl, ?_, rfl⟩
  intro h
  rw [show outboundMessageCount (create_or_mention_thread cfgC stEmptyC cenvOkC 20 77).2.1 =
    3 from rfl] at h
  cases h

/-- C8 (amended): when `create_or_mention_thread` takes the
no-existing-binding branch and every platform call succeeds, its side
effects are exactly three outbound messages and one thread creation, in
order: the announcement in the designated channel, the public thread created
from it, the back-reference in the voice channel chat, and the welcome
message with the rename button in the thread. -/
theorem create_thread_effects_on_success (cfg : AppConfig) (st : HandlerState)
    (env : CreateEnv) (v : ChannelId) (u : UserId) (msg : Message) (thr : ChannelId)
    (h0 : st.vc_to_thread v = none) (h1 : env.send_agenda = some msg)
    (h2 : env.create_thread = some thr) (h3 : env.vc_notice_ok = true)
    (h4 : env.welcome_ok = true) :
    (create_or_mention_thread cfg st env v u).2.1 =
      [Effect.sendMessage cfg.discord.thread_channel (agenda_content u v),
        Effect.createPublicThread cfg.discord.thread_channel msg.id
          (env.channel_name.getD "不明なVC"),
        Effect.sendMessage v (vc_notice_content thr),
        Effect.sendMessageWithButton thr (welcome_content u (env.channel_name.getD "不明なVC"))
          "rename_button"] ∧
    outboundMessageCount (create_or_mention_thread cfg st env v u).2.1 = 3 ∧
    threadCreateCount (create_or_mention_thread cfg st env v u).2.1 = 1 := by
  have heff : (create_or_mention_thread cfg st env v u).2.1 =
      [Effect.sendMessage cfg.discord.thread_channel (agenda_content u v),
        Effect.createPublicThread cfg.discord.thread_channel msg.id
          (env.channel_name.getD "不明なVC"),
        Effect.sendMessage v (vc_notice_content thr),
        Effect.sendMessageWithButton thr (welcome_content u (env.channel_name.getD "不明なVC"))
          "rename_button"] := by
    unfold create_or_mention_thread
    simp [h0, h1, h2, h3, h4]
  refine ⟨heff, ?_, ?_⟩ <;> rw [heff] <;> rfl

/-- C9 counterexample: `finalize_agenda_message` holds the
`thread_to_agenda_message` lock across the agenda-message deletion await (the
no-human path with a registered agenda message), refuting "no lock is ever
held across a suspension point". -/
theorem finalize_holds_lock_across_await :
    noLockAcrossSuspend (finalize_agenda_message_sync true true) = false := by
  decide

/-- C9 (amended): the bot-identity cell and the two channel maps follow the
copy-then-release discipline on every path of every operation, but
`finalize_agenda_message` (and `channel_delete`, which runs it) holds the
`thread_to_agenda_message` lock — and only that lock — across suspension
points. -/
theorem lock_discipline_amended :
    (∀ b p, noLockAcrossSuspend (create_or_mention_thread_sync b p) = true) ∧
    (∀ b, noLockAcrossSuspend (rename_thread_sync b) = true) ∧
    (∀ f, noLockAcrossSuspend (get_vc_sync f) = true) ∧
    (∀ f, noLockAcrossSuspend (button_pressed_sync f) = true) ∧
    (∀ f pk g hf ek, noLockAcrossSuspend (rename_vc_sync f pk g hf ek) = true) ∧
    noLockAcrossSuspend ready_sync = true ∧
    (∀ r nh, suspendsHoldOnly [MutexName.threadToAgendaMessage] []
      (finalize_agenda_message_sync r nh) = true) ∧
    (∀ f r nh, suspendsHoldOnly [MutexName.threadToAgendaMessage] []
      (channel_delete_sync f r nh) = true) := by
  decide

/-- `finalize_agenda_message` only ever deletes or edits the agenda message:
no channel-level effect (in particular no channel deletion) occurs in it. -/
theorem finalize_effects_no_delete_channel (st : HandlerState) (env : FinalizeEnv)
    (t : ChannelId) :
    ∀ c, Effect.deleteChannel c ∉ (finalize_agenda_message st env t).1 := by
  intro c
  unfold finalize_agenda_message
  cases env.messages with
  | none => simp
  | some msgs =>
    cases st.thread_to_agenda_message t with
    | none => simp
    | some message =>
      dsimp only
      split
      · simp
      · cases env.thread_members with
        | none => simp
        | some members =>
          cases env.thread_channel with
          | none => simp
          | some ch =>
            cases st.bot_user_id with
            | none => simp
            | some bot => simp

/-- C10: in `channel_delete`, an error from `finalize_agenda_message` is
treated as `should_delete = false`: the bound thread is archived and no
channel deletion is attempted, so a finalization failure can never cause
thread deletion. -/
theorem channel_delete_error_archives (cfg : AppConfig) (st : HandlerState)
    (fenv : FinalizeEnv) (ch : GuildChannel) (tid : ChannelId) (e : String)
    (h1 : is_custom_vc cfg ch = true)
    (h2 : st.vc_to_thread ch.id = some tid)
    (h3 : (finalize_agenda_message st fenv tid).2 = Except.error e) :
    Effect.editThread tid none (some true) ∈ (channel_delete cfg st fenv ch).2 ∧
    (∀ c, Effect.deleteChannel c ∉ (channel_delete cfg st fenv ch).2) := by
  have heff : (channel_delete cfg st fenv ch).2 =
      (finalize_agenda_message st fenv tid).1 ++ [Effect.editThread tid none (some true)] := by
    unfold channel_delete
    rw [h1, h2]
    dsimp only
    rw [h3]
    simp
  constructor
  · rw [heff]
    exact List.mem_append_right _ (List.mem_singleton.mpr rfl)
  · intro c hmem
    rw [heff] at hmem
    rcases List.mem_append.mp hmem with hin | hin
    · exact finalize_effects_no_delete_channel st fenv tid c hin
    · rcases List.mem_singleton.mp hin with h
      cases h

/-! ### Witnesses: the claim theorems applied at concrete inputs -/

/-- A voice channel in the ignored list (id 2). -/
def chIgnoredC : GuildChannel :=
  { id := 2, kind := ChannelKind.voice, parent_id := some 1, name := "除外VC" }

/-- A concrete rename-thread environment. -/
def renvC : RenameThreadEnv := { channel_name := some "新しい名前", edit_ok := true }

/-- Witness for C2: a creation event from the empty state keeps the maps
converse to each other. -/
theorem step_preserves_bidir_witness :
    Bidir (step cfgC stEmptyC (Event.evVoiceStateUpdate venvC vsC)).1 :=
  step_preserves_bidir cfgC stEmptyC (Event.evVoiceStateUpdate venvC vsC)
    (fun v t => by simp [stEmptyC]) (fun t ht => by simp [stEmptyC])

/-- Witness for C3: a join event on the already-bound channel 20 by the
already-present member 77 changes nothing and posts nothing. -/
theorem create_or_mention_thread_idempotent_witness :
    (create_or_mention_thread cfgC stBoundC cenvOkC 20 77).1 = stBoundC ∧
    (create_or_mention_thread cfgC stBoundC cenvOkC 20 77).2.1 = [] := by
  refine ⟨(create_or_mention_thread_idempotent cfgC stBoundC cenvOkC 20 77 10 rfl).1, ?_⟩
  have h := (create_or_mention_thread_idempotent cfgC stBoundC cenvOkC 20 77 10 rfl).2.2.1
    [{ user_id := some 77 }] rfl
  exact h.trans (by decide)

/-- Witness for C4: the denied modal submission on thread 10 gets exactly
the ephemeral owner-only reply. -/
theorem rename_vc_rechecks_permission_witness :
    (rename_vc stBoundC menvDeniedC miC).1 =
      [Effect.interactionRespondMessage true "❌VCのオーナーのみが名前を変更できます"] :=
  (rename_vc_rechecks_permission stBoundC menvDeniedC miC 20 gcC
    { manage_channels := false } rfl rfl rfl rfl).1

/-- Witness for C5 (amended): the permission-fetch failure on a resolvable
voice channel produces no interaction response and no success. -/
theorem rename_workflow_response_discipline_witness :
    responseCount (rename_vc stBoundC menvPermFailC miC).1 = 0 ∧
    (rename_vc stBoundC menvPermFailC miC).2 ≠ Except.ok () :=
  (rename_workflow_response_discipline stBoundC benvC menvPermFailC ciC miC).2.2.2
    (Or.inl rfl) ⟨gcC, rfl⟩

/-- Witness for C6: deleting the ignored voice channel 2 does nothing. -/
theorem is_custom_vc_spec_witness :
    channel_delete cfgC stBoundC fenvQuietC chIgnoredC = (stBoundC, []) :=
  (is_custom_vc_spec cfgC chIgnoredC stBoundC fenvQuietC renvC venvC vsC gcC).2.1 rfl

/-- Witness for C7: after deleting voice channel 20 the binding 20 → 10 is
still present. -/
theorem step_never_removes_entries_witness :
    ((step cfgC stBoundC (Event.evChannelDelete fenvQuietC gcC)).1).vc_to_thread 20 =
      some 10 :=
  (step_never_removes_entries cfgC stBoundC (Event.evChannelDelete fenvQuietC gcC)
    True.intro).1 20 10 rfl

/-- Witness for C8 (amended): a successful creation run on the unbound voice
channel 21 attempts exactly three outbound messages. -/
theorem create_thread_effects_on_success_witness :
    outboundMessageCount (create_or_mention_thread cfgC stEmptyC cenvOkC 21 77).2.1 = 3 :=
  (create_thread_effects_on_success cfgC stEmptyC cenvOkC 21 77 agendaC 10
    rfl rfl rfl rfl rfl).2.1

/-- Witness for C10: with a failing member fetch during finalization of
thread 10, channel deletion of 20 archives the thread. -/
theorem channel_delete_error_archives_witness :
    Effect.editThread 10 none (some true) ∈ (channel_delete cfgC stBoundC fenvMembersFailC gcC).2 :=
  (channel_delete_error_archives cfgC stBoundC fenvMembersFailC gcC 10 "メンバー取得に失敗"
    rfl rfl rfl).1

end VcThread
